import Mathlib

/-!
# QPdfWriter: the page-layout adapter over the PDF engine

Shallow embedding of `src/gui/printing/qpdfwriter.cpp`.

The writer object is a record of the paged-device layout mirror
(`m_pageLayout`) and the writer-private data (`engine`, `output`).  Every
member function becomes a function from the writer state to the new writer
state (and the returned value, where the member function returns one).

The engine class `QPdfEngine` and the value classes `QPageLayout`,
`QPageSize` and `QMarginsF` are declared in headers that are not part of the
sources.  Their member functions are taken as parameters (`QPdfEngine`,
`PageApi`), so that every statement below holds for whatever these functions
compute.
-/

namespace PdfWriter

/-- Pointer values; `0` is the null pointer. -/
abbrev Ptr := Nat

/-- QMarginsF, built as `QMarginsF(left, top, right, bottom)`; `R` stands for `qreal`. -/
structure QMarginsF (R : Type) where
  left : R
  top : R
  right : R
  bottom : R
deriving DecidableEq, Repr

/-- QSizeF, a width and a height. -/
structure QSizeF (R : Type) where
  wd : R
  ht : R
deriving DecidableEq, Repr

/-- The record `QPagedPaintDevice::Margins` taken by the deprecated `setMargins`. -/
structure Margins (R : Type) where
  left : R
  right : R
  top : R
  bottom : R
deriving DecidableEq, Repr

/-- The member functions and constants of `QPageLayout` (type `L`), `QPageSize`
(type `S`), `QPageLayout::Orientation` (type `O`), `QPageLayout::Unit` (type `U`)
and `QMarginsF` that `qpdfwriter.cpp` uses.  Their code is declared outside the
sources, so each one is a parameter. -/
structure PageApi (L S O U R : Type) where
  /-- The member function `QPageLayout::pageSize()` -/
  pageSize : L → S
  /-- The member function `QPageLayout::orientation()` -/
  orientation : L → O
  /-- The member function `QPageLayout::margins()` -/
  margins : L → QMarginsF R
  /-- The member function `QPageLayout::units()` -/
  units : L → U
  /-- The member function `QPageLayout::isEquivalentTo`, receiver first -/
  layoutEquivalentTo : L → L → Bool
  /-- The member function `QPageSize::isEquivalentTo`, receiver first -/
  sizeEquivalentTo : S → S → Bool
  /-- The comparison `operator==` on `QMarginsF`, left operand first -/
  marginsEq : QMarginsF R → QMarginsF R → Bool
  /-- The enumerator `QPageLayout::Millimeter` -/
  Millimeter : U
  /-- The constructor call `QPageSize(QPageSize::PageSizeId(size))`; the enumerator is carried as its integer value -/
  sizeOfId : Int → S
  /-- The constructor call `QPageSize(size, QPageSize::Millimeter)` -/
  sizeOfMM : QSizeF R → S

/-- Modelled from the spec: the engine's private data `QPdfEnginePrivate`, declared
outside the sources.  Title and creator are "direct pass-through string
properties": the members the writer reads and writes directly (`title`,
`creator`, `outDevice`) stand next to the rest of the engine's state (`core`),
which holds the layout and the resolution and on which the engine's member
functions work. -/
structure QPdfEnginePrivate (E : Type) where
  title : String
  creator : String
  outDevice : Ptr
  core : E
deriving DecidableEq, Repr

/-- The member functions of `QPdfEngine` that the writer calls.  The class is
declared outside the sources, so each member function is a parameter; a `void`
member function is the new engine state alone. -/
structure QPdfEngine (L S O U R E : Type) where
  /-- The engine state made by `new QPdfEngine()` -/
  create : QPdfEnginePrivate E
  /-- The member function `QPdfEngine::setOutputFilename` -/
  setOutputFilename : E → String → E
  /-- The member function `QPdfEngine::setPageLayout` -/
  setPageLayout : E → L → E
  /-- The member function `QPdfEngine::setPageSize` -/
  setPageSize : E → S → E
  /-- The member function `QPdfEngine::setPageOrientation` -/
  setPageOrientation : E → O → E
  /-- The member function `QPdfEngine::setPageMargins` -/
  setPageMargins : E → QMarginsF R → U → E
  /-- The member function `QPdfEngine::pageLayout() const` -/
  pageLayout : E → L
  /-- The member function `QPdfEngine::setResolution` -/
  setResolution : E → Int → E
  /-- The member function `QPdfEngine::resolution() const` -/
  resolution : E → Int
  /-- The member function `QPdfEngine::newPage`: the new engine state and the returned flag -/
  newPage : E → E × Bool

/-- The class `QPdfWriterPrivate`: the engine (held by pointer, never
reassigned, so carried by value) and the file pointer `output`. -/
structure QPdfWriterPrivate (E : Type) where
  engine : QPdfEnginePrivate E
  output : Ptr
deriving DecidableEq, Repr

/-- A `QPdfWriter` object: the layout `m_pageLayout` of its paged-device private
part and its own private part `d`. -/
structure QPdfWriter (L E : Type) where
  m_pageLayout : L
  d : QPdfWriterPrivate E
deriving DecidableEq, Repr

section Model

variable {L S O U R E : Type} [DecidableEq O] [DecidableEq U]

/-- The constructor `QPdfWriterPrivate()`: `engine = new QPdfEngine(); output = 0;`. -/
def QPdfWriterPrivate.new (eng : QPdfEngine L S O U R E) : QPdfWriterPrivate E :=
  { engine := eng.create, output := 0 }

/-- The destructor `~QPdfWriterPrivate()`, as the list of file objects that
`delete output` releases (deleting the null pointer releases nothing). -/
def QPdfWriterPrivate.deletedOutput (d : QPdfWriterPrivate E) : List Ptr :=
  if d.output = 0 then [] else [d.output]

/-- The writer after an engine member function has taken the engine's state to `e`. -/
def QPdfWriter.withCore (w : QPdfWriter L E) (e : E) : QPdfWriter L E :=
  { w with d := { w.d with engine := { w.d.engine with core := e } } }

/-- The engine state `pd->engine` of a writer. -/
def QPdfWriter.core (w : QPdfWriter L E) : E := w.d.engine.core

namespace QPdfPagedPaintDevicePrivate

/-- The function `QPdfPagedPaintDevicePrivate::pageLayout`: `return pd->engine->pageLayout();`. -/
def pageLayout (eng : QPdfEngine L S O U R E) (w : QPdfWriter L E) : L :=
  eng.pageLayout w.core

/-- The function `QPdfPagedPaintDevicePrivate::setPageLayout`. -/
def setPageLayout (api : PageApi L S O U R) (eng : QPdfEngine L S O U R E)
    (w : QPdfWriter L E) (newPageLayout : L) : Bool × QPdfWriter L E :=
  -- pd->engine->setPageLayout(newPageLayout);
  let w1 := w.withCore (eng.setPageLayout w.core newPageLayout)
  -- m_pageLayout = pd->engine->pageLayout();
  let w2 := { w1 with m_pageLayout := eng.pageLayout w1.core }
  -- return m_pageLayout.isEquivalentTo(newPageLayout);
  (api.layoutEquivalentTo w2.m_pageLayout newPageLayout, w2)

/-- The function `QPdfPagedPaintDevicePrivate::setPageSize`. -/
def setPageSize (api : PageApi L S O U R) (eng : QPdfEngine L S O U R E)
    (w : QPdfWriter L E) (pageSize : S) : Bool × QPdfWriter L E :=
  -- pd->engine->setPageSize(pageSize);
  let w1 := w.withCore (eng.setPageSize w.core pageSize)
  -- m_pageLayout = pd->engine->pageLayout();
  let w2 := { w1 with m_pageLayout := eng.pageLayout w1.core }
  -- return m_pageLayout.pageSize().isEquivalentTo(pageSize);
  (api.sizeEquivalentTo (api.pageSize w2.m_pageLayout) pageSize, w2)

/-- The function `QPdfPagedPaintDevicePrivate::setPageOrientation`. -/
def setPageOrientation (api : PageApi L S O U R) (eng : QPdfEngine L S O U R E)
    (w : QPdfWriter L E) (orientation : O) : Bool × QPdfWriter L E :=
  -- pd->engine->setPageOrientation(orientation);
  let w1 := w.withCore (eng.setPageOrientation w.core orientation)
  -- m_pageLayout = pd->engine->pageLayout();
  let w2 := { w1 with m_pageLayout := eng.pageLayout w1.core }
  -- return m_pageLayout.orientation() == orientation;
  (decide (api.orientation w2.m_pageLayout = orientation), w2)

/-- The function `QPdfPagedPaintDevicePrivate::setPageMargins(const QMarginsF &, QPageLayout::Unit)`,
the overload with two arguments. -/
def setPageMarginsUnits (api : PageApi L S O U R) (eng : QPdfEngine L S O U R E)
    (w : QPdfWriter L E) (margins : QMarginsF R) (units : U) : Bool × QPdfWriter L E :=
  -- pd->engine->setPageMargins(margins, units);
  let w1 := w.withCore (eng.setPageMargins w.core margins units)
  -- m_pageLayout = pd->engine->pageLayout();
  let w2 := { w1 with m_pageLayout := eng.pageLayout w1.core }
  -- return m_pageLayout.margins() == margins && m_pageLayout.units() == units;
  (api.marginsEq (api.margins w2.m_pageLayout) margins
      && decide (api.units w2.m_pageLayout = units), w2)

/-- The function `QPdfPagedPaintDevicePrivate::setPageMargins(const QMarginsF &)`, the overload
with one argument: `return setPageMargins(margins, pageLayout().units());`. -/
def setPageMargins (api : PageApi L S O U R) (eng : QPdfEngine L S O U R E)
    (w : QPdfWriter L E) (margins : QMarginsF R) : Bool × QPdfWriter L E :=
  setPageMarginsUnits api eng w margins (api.units (pageLayout eng w))

end QPdfPagedPaintDevicePrivate

namespace QPdfWriter

/-- The constructor `QPdfWriter::QPdfWriter(const QString &filename)`. -/
def fromFilename (eng : QPdfEngine L S O U R E) (filename : String) : QPdfWriter L E :=
  -- d_ptr(new QPdfWriterPrivate)
  let d := QPdfWriterPrivate.new eng
  -- d->engine->setOutputFilename(filename);
  let d := { d with engine := { d.engine with core := eng.setOutputFilename d.engine.core filename } }
  -- devicePageLayout() = d->engine->pageLayout();
  { m_pageLayout := eng.pageLayout d.engine.core, d := d }

/-- The constructor `QPdfWriter::QPdfWriter(QIODevice *device)`. -/
def fromDevice (eng : QPdfEngine L S O U R E) (device : Ptr) : QPdfWriter L E :=
  -- d_ptr(new QPdfWriterPrivate)
  let d := QPdfWriterPrivate.new eng
  -- d->engine->d_func()->outDevice = device;
  let d := { d with engine := { d.engine with outDevice := device } }
  -- devicePageLayout() = d->engine->pageLayout();
  { m_pageLayout := eng.pageLayout d.engine.core, d := d }

/-- The function `QPdfWriter::title`. -/
def title (w : QPdfWriter L E) : String := w.d.engine.title

/-- The function `QPdfWriter::setTitle`: `d->engine->d_func()->title = title;`. -/
def setTitle (w : QPdfWriter L E) (title : String) : QPdfWriter L E :=
  { w with d := { w.d with engine := { w.d.engine with title := title } } }

/-- The function `QPdfWriter::creator`. -/
def creator (w : QPdfWriter L E) : String := w.d.engine.creator

/-- The function `QPdfWriter::setCreator`: `d->engine->d_func()->creator = creator;`. -/
def setCreator (w : QPdfWriter L E) (creator : String) : QPdfWriter L E :=
  { w with d := { w.d with engine := { w.d.engine with creator := creator } } }

/-- The function `QPdfWriter::setResolution`: `if (resolution > 0) d->engine->setResolution(resolution);`. -/
def setResolution (eng : QPdfEngine L S O U R E) (w : QPdfWriter L E) (resolution : Int) :
    QPdfWriter L E :=
  if resolution > 0 then w.withCore (eng.setResolution w.core resolution) else w

/-- The function `QPdfWriter::resolution`: `return d->engine->resolution();`. -/
def resolution (eng : QPdfEngine L S O U R E) (w : QPdfWriter L E) : Int :=
  eng.resolution w.core

/-- The function `QPdfWriter::newPage`: `return d->engine->newPage();`. -/
def newPage (eng : QPdfEngine L S O U R E) (w : QPdfWriter L E) : Bool × QPdfWriter L E :=
  ((eng.newPage w.core).2, w.withCore (eng.newPage w.core).1)

end QPdfWriter

/-! The canonical setters and the getter `pageLayout` of a writer are members of
the base class `QPagedPaintDevice` ("defined in QPagedPaintDevice but
non-virtual", as the documentation block of `qpdfwriter.cpp` says).  The base
class is declared outside the sources. -/
namespace QPagedPaintDevice

/-- Modelled from the spec: the public `QPagedPaintDevice::pageLayout()`, whose body is
not in the sources; it returns what the device-private `pageLayout()` returns. -/
def pageLayout (eng : QPdfEngine L S O U R E) (w : QPdfWriter L E) : L :=
  QPdfPagedPaintDevicePrivate.pageLayout eng w

/-- Modelled from the spec: the public `QPagedPaintDevice::setPageLayout`, whose body is
not in the sources; it hands the request to the device-private setter and
returns its result. -/
def setPageLayout (api : PageApi L S O U R) (eng : QPdfEngine L S O U R E)
    (w : QPdfWriter L E) (newPageLayout : L) : Bool × QPdfWriter L E :=
  QPdfPagedPaintDevicePrivate.setPageLayout api eng w newPageLayout

/-- Modelled from the spec: the public `QPagedPaintDevice::setPageSize(const QPageSize &)`,
whose body is not in the sources; it hands the request to the device-private
setter and returns its result. -/
def setPageSize (api : PageApi L S O U R) (eng : QPdfEngine L S O U R E)
    (w : QPdfWriter L E) (pageSize : S) : Bool × QPdfWriter L E :=
  QPdfPagedPaintDevicePrivate.setPageSize api eng w pageSize

/-- Modelled from the spec: the public `QPagedPaintDevice::setPageOrientation`, whose
body is not in the sources; it hands the request to the device-private setter
and returns its result. -/
def setPageOrientation (api : PageApi L S O U R) (eng : QPdfEngine L S O U R E)
    (w : QPdfWriter L E) (orientation : O) : Bool × QPdfWriter L E :=
  QPdfPagedPaintDevicePrivate.setPageOrientation api eng w orientation

/-- Modelled from the spec: the public `QPagedPaintDevice::setPageMargins(const QMarginsF &)`,
whose body is not in the sources; it hands the request to the device-private
setter and returns its result. -/
def setPageMargins (api : PageApi L S O U R) (eng : QPdfEngine L S O U R E)
    (w : QPdfWriter L E) (margins : QMarginsF R) : Bool × QPdfWriter L E :=
  QPdfPagedPaintDevicePrivate.setPageMargins api eng w margins

/-- Modelled from the spec: the public
`QPagedPaintDevice::setPageMargins(const QMarginsF &, QPageLayout::Unit)`, whose body
is not in the sources; it hands the request to the device-private setter and
returns its result. -/
def setPageMarginsUnits (api : PageApi L S O U R) (eng : QPdfEngine L S O U R E)
    (w : QPdfWriter L E) (margins : QMarginsF R) (units : U) : Bool × QPdfWriter L E :=
  QPdfPagedPaintDevicePrivate.setPageMarginsUnits api eng w margins units

end QPagedPaintDevice

namespace QPdfWriter

/-- The deprecated `QPdfWriter::setPageSize(PageSize size)`:
`setPageSize(QPageSize(QPageSize::PageSizeId(size)));`, the result dropped. -/
def setPageSize (api : PageApi L S O U R) (eng : QPdfEngine L S O U R E)
    (w : QPdfWriter L E) (size : Int) : QPdfWriter L E :=
  (QPagedPaintDevice.setPageSize api eng w (api.sizeOfId size)).2

/-- The deprecated `QPdfWriter::setPageSizeMM(const QSizeF &size)`:
`setPageSize(QPageSize(size, QPageSize::Millimeter));`, the result dropped. -/
def setPageSizeMM (api : PageApi L S O U R) (eng : QPdfEngine L S O U R E)
    (w : QPdfWriter L E) (size : QSizeF R) : QPdfWriter L E :=
  (QPagedPaintDevice.setPageSize api eng w (api.sizeOfMM size)).2

/-- The deprecated `QPdfWriter::setMargins(const Margins &m)`:
`setPageMargins(QMarginsF(m.left, m.top, m.right, m.bottom), QPageLayout::Millimeter);`. -/
def setMargins (api : PageApi L S O U R) (eng : QPdfEngine L S O U R E)
    (w : QPdfWriter L E) (m : Margins R) : QPdfWriter L E :=
  (QPagedPaintDevice.setPageMarginsUnits api eng w
    (QMarginsF.mk m.left m.top m.right m.bottom) api.Millimeter).2

end QPdfWriter

/-- The mutating operations of a writer after its construction. -/
inductive Op (L S O U R : Type) where
  | setPageLayout (newPageLayout : L)
  | setPageSize (pageSize : S)
  | setPageOrientation (orientation : O)
  | setPageMargins (margins : QMarginsF R)
  | setPageMarginsUnits (margins : QMarginsF R) (units : U)
  | setPageSizeById (size : Int)
  | setPageSizeMM (size : QSizeF R)
  | setMargins (m : Margins R)
  | setResolution (resolution : Int)
  | setTitle (title : String)
  | setCreator (creator : String)
  | newPage

/-- The writer after one operation. -/
def Op.apply (api : PageApi L S O U R) (eng : QPdfEngine L S O U R E) :
    Op L S O U R → QPdfWriter L E → QPdfWriter L E
  | .setPageLayout l, w => (QPagedPaintDevice.setPageLayout api eng w l).2
  | .setPageSize s, w => (QPagedPaintDevice.setPageSize api eng w s).2
  | .setPageOrientation o, w => (QPagedPaintDevice.setPageOrientation api eng w o).2
  | .setPageMargins m, w => (QPagedPaintDevice.setPageMargins api eng w m).2
  | .setPageMarginsUnits m u, w => (QPagedPaintDevice.setPageMarginsUnits api eng w m u).2
  | .setPageSizeById size, w => QPdfWriter.setPageSize api eng w size
  | .setPageSizeMM size, w => QPdfWriter.setPageSizeMM api eng w size
  | .setMargins m, w => QPdfWriter.setMargins api eng w m
  | .setResolution r, w => QPdfWriter.setResolution eng w r
  | .setTitle t, w => QPdfWriter.setTitle w t
  | .setCreator c, w => QPdfWriter.setCreator w c
  | .newPage, w => (QPdfWriter.newPage eng w).2

/-- The writer after a sequence of operations, first operation first. -/
def run (api : PageApi L S O U R) (eng : QPdfEngine L S O U R E)
    (ops : List (Op L S O U R)) (w : QPdfWriter L E) : QPdfWriter L E :=
  ops.foldl (fun w op => op.apply api eng w) w

/-- The states of a writer that its constructors and operations can produce. -/
inductive Reachable (api : PageApi L S O U R) (eng : QPdfEngine L S O U R E) :
    QPdfWriter L E → Prop where
  | fromFilename (filename : String) : Reachable api eng (QPdfWriter.fromFilename eng filename)
  | fromDevice (device : Ptr) : Reachable api eng (QPdfWriter.fromDevice eng device)
  | step (op : Op L S O U R) (w : QPdfWriter L E) :
      Reachable api eng w → Reachable api eng (op.apply api eng w)

/-- The mirror invariant: the cached layout is the engine's current layout. -/
def MirrorOk (eng : QPdfEngine L S O U R E) (w : QPdfWriter L E) : Prop :=
  w.m_pageLayout = eng.pageLayout w.core

end Model

/-! ## A sample engine

A small engine over integer geometry, used to evaluate the writer on concrete
inputs.  It keeps a layout, a resolution, a file name and a page count; it
refuses a page size without a positive width and height and refuses margins
with a negative component, as a validating engine does. -/
namespace Sample

/-- Page orientations of the sample geometry. -/
inductive Orientation where
  | Portrait
  | Landscape
deriving DecidableEq, Repr

/-- Units of the sample geometry. -/
inductive LUnit where
  | Millimeter
  | Point
deriving DecidableEq, Repr

/-- A page size: an identifier and the size in points. -/
structure PageSize where
  id : Int
  wd : Int
  ht : Int
deriving DecidableEq, Repr

/-- A page layout of the sample geometry. -/
structure Layout where
  pageSize : PageSize
  orientation : Orientation
  margins : QMarginsF Int
  units : LUnit
deriving DecidableEq, Repr

/-- The state of the sample engine. -/
structure Core where
  layout : Layout
  resolution : Int
  fileName : String
  pages : Nat
deriving DecidableEq, Repr

/-- Page sizes by identifier: 0 is A4, 2 is Letter, any other identifier has no size. -/
def sizeOfId (id : Int) : PageSize :=
  if id = 0 then ⟨0, 595, 842⟩ else if id = 2 then ⟨2, 612, 792⟩ else ⟨id, -1, -1⟩

/-- A custom page size (identifier 30) from millimetres, in whole points. -/
def sizeOfMM (z : QSizeF Int) : PageSize :=
  ⟨30, z.wd * 720 / 254, z.ht * 720 / 254⟩

/-- The value operations of the sample geometry. -/
def api : PageApi Layout PageSize Orientation LUnit Int where
  pageSize := Layout.pageSize
  orientation := Layout.orientation
  margins := Layout.margins
  units := Layout.units
  layoutEquivalentTo := fun a b =>
    decide (a.pageSize.wd = b.pageSize.wd ∧ a.pageSize.ht = b.pageSize.ht)
      && decide (a.orientation = b.orientation)
      && decide (a.margins = b.margins) && decide (a.units = b.units)
  sizeEquivalentTo := fun a b => decide (a.wd = b.wd ∧ a.ht = b.ht)
  marginsEq := fun a b => decide (a = b)
  Millimeter := LUnit.Millimeter
  sizeOfId := sizeOfId
  sizeOfMM := sizeOfMM

/-- The layout a new sample engine starts with: A4, portrait, margins of 10 mm. -/
def defaultLayout : Layout :=
  ⟨⟨0, 595, 842⟩, Orientation.Portrait, ⟨10, 10, 10, 10⟩, LUnit.Millimeter⟩

/-- The sample engine. -/
def engine : QPdfEngine Layout PageSize Orientation LUnit Int Core where
  create := ⟨"", "", 0, ⟨defaultLayout, 1200, "", 0⟩⟩
  setOutputFilename := fun e f => { e with fileName := f }
  setPageLayout := fun e l => { e with layout := l }
  setPageSize := fun e s =>
    if 0 < s.wd ∧ 0 < s.ht then { e with layout := { e.layout with pageSize := s } } else e
  setPageOrientation := fun e o => { e with layout := { e.layout with orientation := o } }
  setPageMargins := fun e m u =>
    if 0 ≤ m.left ∧ 0 ≤ m.top ∧ 0 ≤ m.right ∧ 0 ≤ m.bottom
    then { e with layout := { e.layout with units := u, margins := m } }
    else { e with layout := { e.layout with units := u } }
  pageLayout := Core.layout
  setResolution := fun e r => { e with resolution := r }
  resolution := Core.resolution
  newPage := fun e => ({ e with pages := e.pages + 1 }, true)

/-- A variant of the sample engine that keeps its margins in device pixels:
`setResolution` rescales the margins of its layout to the new resolution. -/
def rescalingEngine : QPdfEngine Layout PageSize Orientation LUnit Int Core :=
  { engine with
    setResolution := fun e r =>
      { e with
        resolution := r
        layout := { e.layout with
          margins := ⟨e.layout.margins.left * r / e.resolution,
                      e.layout.margins.top * r / e.resolution,
                      e.layout.margins.right * r / e.resolution,
                      e.layout.margins.bottom * r / e.resolution⟩ } } }

/-- The writer built over the sample engine from the file name `out.pdf`. -/
def writer0 : QPdfWriter Layout Core := QPdfWriter.fromFilename engine "out.pdf"

/-- A page size without extent, which the sample engine refuses. -/
def emptySize : PageSize := ⟨30, 0, 0⟩

/-- The Letter page size. -/
def letter : PageSize := ⟨2, 612, 792⟩

/-- Another page size without extent, with a different identifier. -/
def otherEmptySize : PageSize := ⟨31, 0, 0⟩

/-- The writer `writer0` after `setPageLayout` with a layout whose page size is
`emptySize`; the sample engine stores a full layout as given. -/
def writerNoExtent : QPdfWriter Layout Core :=
  (QPdfPagedPaintDevicePrivate.setPageLayout api engine writer0
    ⟨emptySize, Orientation.Portrait, ⟨10, 10, 10, 10⟩, LUnit.Millimeter⟩).2

/-- Margins with a negative component, which the sample engine refuses. -/
def negativeMargins : QMarginsF Int := ⟨-1, 5, 5, 5⟩

/-- The sample geometry with `isEquivalentTo` holding between equal values only. -/
def strictApi : PageApi Layout PageSize Orientation LUnit Int :=
  { api with
    layoutEquivalentTo := fun a b => decide (a = b)
    sizeEquivalentTo := fun a b => decide (a = b) }

end Sample

/-! ## Theorems -/

section Theorems

variable {L S O U R E : Type}

/-- Every operation leaves the file pointer `output` as it was. -/
theorem Op.apply_output [DecidableEq O] [DecidableEq U]
    (api : PageApi L S O U R) (eng : QPdfEngine L S O U R E)
    (op : Op L S O U R) (w : QPdfWriter L E) :
    (op.apply api eng w).d.output = w.d.output := by
  cases op <;> try rfl
  case setResolution r =>
    show (QPdfWriter.setResolution eng w r).d.output = w.d.output
    unfold QPdfWriter.setResolution
    split <;> rfl

/-- C1: each of the four layout setters hands the request to the engine (the
engine state afterwards is the engine's own setter applied to the state before)
and returns exactly the comparison of the request with the layout the engine
reports after the call: `isEquivalentTo` for a layout and for a page size, `==`
for an orientation, `==` on margins and on units for margins.  The result, and
the writer afterwards, do not depend on the layout mirrored before the call. -/
theorem setters_return_engine_comparison [DecidableEq O] [DecidableEq U]
    (api : PageApi L S O U R) (eng : QPdfEngine L S O U R E) (w : QPdfWriter L E) :
    (∀ l : L,
      (QPdfPagedPaintDevicePrivate.setPageLayout api eng w l).2.core = eng.setPageLayout w.core l
      ∧ (QPdfPagedPaintDevicePrivate.setPageLayout api eng w l).1
          = api.layoutEquivalentTo
              (eng.pageLayout (QPdfPagedPaintDevicePrivate.setPageLayout api eng w l).2.core) l
      ∧ ∀ m : L, QPdfPagedPaintDevicePrivate.setPageLayout api eng { w with m_pageLayout := m } l
          = QPdfPagedPaintDevicePrivate.setPageLayout api eng w l)
    ∧ (∀ s : S,
      (QPdfPagedPaintDevicePrivate.setPageSize api eng w s).2.core = eng.setPageSize w.core s
      ∧ (QPdfPagedPaintDevicePrivate.setPageSize api eng w s).1
          = api.sizeEquivalentTo (api.pageSize
              (eng.pageLayout (QPdfPagedPaintDevicePrivate.setPageSize api eng w s).2.core)) s
      ∧ ∀ m : L, QPdfPagedPaintDevicePrivate.setPageSize api eng { w with m_pageLayout := m } s
          = QPdfPagedPaintDevicePrivate.setPageSize api eng w s)
    ∧ (∀ o : O,
      (QPdfPagedPaintDevicePrivate.setPageOrientation api eng w o).2.core
          = eng.setPageOrientation w.core o
      ∧ ((QPdfPagedPaintDevicePrivate.setPageOrientation api eng w o).1 = true
          ↔ api.orientation
              (eng.pageLayout (QPdfPagedPaintDevicePrivate.setPageOrientation api eng w o).2.core)
            = o)
      ∧ ∀ m : L, QPdfPagedPaintDevicePrivate.setPageOrientation api eng { w with m_pageLayout := m } o
          = QPdfPagedPaintDevicePrivate.setPageOrientation api eng w o)
    ∧ (∀ (mg : QMarginsF R) (u : U),
      (QPdfPagedPaintDevicePrivate.setPageMarginsUnits api eng w mg u).2.core
          = eng.setPageMargins w.core mg u
      ∧ ((QPdfPagedPaintDevicePrivate.setPageMarginsUnits api eng w mg u).1 = true
          ↔ api.marginsEq (api.margins
              (eng.pageLayout (QPdfPagedPaintDevicePrivate.setPageMarginsUnits api eng w mg u).2.core))
              mg = true
            ∧ api.units
              (eng.pageLayout (QPdfPagedPaintDevicePrivate.setPageMarginsUnits api eng w mg u).2.core)
              = u)
      ∧ ∀ m : L,
          QPdfPagedPaintDevicePrivate.setPageMarginsUnits api eng { w with m_pageLayout := m } mg u
          = QPdfPagedPaintDevicePrivate.setPageMarginsUnits api eng w mg u) := by
  refine ⟨fun l => ⟨rfl, rfl, fun m => rfl⟩, fun s => ⟨rfl, rfl, fun m => rfl⟩,
    fun o => ⟨rfl, ?_, fun m => rfl⟩, fun mg u => ⟨rfl, ?_, fun m => rfl⟩⟩
  · simp [QPdfPagedPaintDevicePrivate.setPageOrientation, QPdfWriter.core, QPdfWriter.withCore]
  · simp [QPdfPagedPaintDevicePrivate.setPageMarginsUnits, QPdfWriter.core, QPdfWriter.withCore]

/-- C3, the claim refuted, at the sample engine.  First: the engine holds a page
size without extent (identifier 30) and refuses another one (identifier 31);
its layout does not carry the request, yet `setPageSize` returns true, the two
sizes being equivalent.  Second: the engine refuses the page size without
extent, `setPageSize` returns false, and the layout afterwards (mirror and
`pageLayout()`) is equal to the layout held before the call. -/
theorem rejected_request_true_or_prior_layout :
    (Sample.api.pageSize (Sample.engine.pageLayout
          (Sample.engine.setPageSize Sample.writerNoExtent.core Sample.otherEmptySize))
        ≠ Sample.otherEmptySize
      ∧ (QPdfPagedPaintDevicePrivate.setPageSize Sample.api Sample.engine
          Sample.writerNoExtent Sample.otherEmptySize).1 = true)
    ∧ (Sample.api.pageSize (Sample.engine.pageLayout
          (Sample.engine.setPageSize Sample.writer0.core Sample.emptySize))
        ≠ Sample.emptySize
      ∧ (QPdfPagedPaintDevicePrivate.setPageSize Sample.api Sample.engine
          Sample.writer0 Sample.emptySize).1 = false
      ∧ (QPdfPagedPaintDevicePrivate.setPageSize Sample.api Sample.engine
          Sample.writer0 Sample.emptySize).2.m_pageLayout = Sample.writer0.m_pageLayout
      ∧ QPdfPagedPaintDevicePrivate.pageLayout Sample.engine
          (QPdfPagedPaintDevicePrivate.setPageSize Sample.api Sample.engine
            Sample.writer0 Sample.emptySize).2 = Sample.writer0.m_pageLayout) := by
  decide

/-- C3, amended: for a request that the engine clamps or rejects (the layout the
engine reports after the call does not carry the requested value), the mirror
and `pageLayout()` afterwards are the engine's layout after the call, which does
not carry the request.  The returned value is the setter's comparison of that
layout with the request: `setPageOrientation` returns false; `setPageMargins`
returns false when the units differ, or when `==` on margins holds between equal
margins only; `setPageLayout` and `setPageSize` return false exactly when the
engine's value is not equivalent to the request, so always when `isEquivalentTo`
relates the request to no other value.  The layout afterwards is the engine's
current one; nothing is said of its relation to the layout held before the
call. -/
theorem rejected_request_mirrors_engine [DecidableEq O] [DecidableEq U]
    (api : PageApi L S O U R) (eng : QPdfEngine L S O U R E) (w : QPdfWriter L E) :
    (∀ l : L, eng.pageLayout (eng.setPageLayout w.core l) ≠ l →
      MirrorOk eng (QPdfPagedPaintDevicePrivate.setPageLayout api eng w l).2
      ∧ (QPdfPagedPaintDevicePrivate.setPageLayout api eng w l).2.m_pageLayout
          = eng.pageLayout (eng.setPageLayout w.core l)
      ∧ QPdfPagedPaintDevicePrivate.pageLayout eng
          (QPdfPagedPaintDevicePrivate.setPageLayout api eng w l).2
          = eng.pageLayout (eng.setPageLayout w.core l)
      ∧ (QPdfPagedPaintDevicePrivate.setPageLayout api eng w l).2.m_pageLayout ≠ l
      ∧ ((QPdfPagedPaintDevicePrivate.setPageLayout api eng w l).1 = false
          ↔ api.layoutEquivalentTo (eng.pageLayout (eng.setPageLayout w.core l)) l = false)
      ∧ ((∀ x : L, api.layoutEquivalentTo x l = true → x = l) →
          (QPdfPagedPaintDevicePrivate.setPageLayout api eng w l).1 = false))
    ∧ (∀ s : S, api.pageSize (eng.pageLayout (eng.setPageSize w.core s)) ≠ s →
      MirrorOk eng (QPdfPagedPaintDevicePrivate.setPageSize api eng w s).2
      ∧ (QPdfPagedPaintDevicePrivate.setPageSize api eng w s).2.m_pageLayout
          = eng.pageLayout (eng.setPageSize w.core s)
      ∧ QPdfPagedPaintDevicePrivate.pageLayout eng
          (QPdfPagedPaintDevicePrivate.setPageSize api eng w s).2
          = eng.pageLayout (eng.setPageSize w.core s)
      ∧ api.pageSize (QPdfPagedPaintDevicePrivate.setPageSize api eng w s).2.m_pageLayout ≠ s
      ∧ ((QPdfPagedPaintDevicePrivate.setPageSize api eng w s).1 = false
          ↔ api.sizeEquivalentTo (api.pageSize (eng.pageLayout (eng.setPageSize w.core s))) s
              = false)
      ∧ ((∀ x : S, api.sizeEquivalentTo x s = true → x = s) →
          (QPdfPagedPaintDevicePrivate.setPageSize api eng w s).1 = false))
    ∧ (∀ o : O, api.orientation (eng.pageLayout (eng.setPageOrientation w.core o)) ≠ o →
      MirrorOk eng (QPdfPagedPaintDevicePrivate.setPageOrientation api eng w o).2
      ∧ (QPdfPagedPaintDevicePrivate.setPageOrientation api eng w o).2.m_pageLayout
          = eng.pageLayout (eng.setPageOrientation w.core o)
      ∧ QPdfPagedPaintDevicePrivate.pageLayout eng
          (QPdfPagedPaintDevicePrivate.setPageOrientation api eng w o).2
          = eng.pageLayout (eng.setPageOrientation w.core o)
      ∧ api.orientation
          (QPdfPagedPaintDevicePrivate.setPageOrientation api eng w o).2.m_pageLayout ≠ o
      ∧ (QPdfPagedPaintDevicePrivate.setPageOrientation api eng w o).1 = false)
    ∧ (∀ (mg : QMarginsF R) (u : U),
      ¬ (api.margins (eng.pageLayout (eng.setPageMargins w.core mg u)) = mg
          ∧ api.units (eng.pageLayout (eng.setPageMargins w.core mg u)) = u) →
      MirrorOk eng (QPdfPagedPaintDevicePrivate.setPageMarginsUnits api eng w mg u).2
      ∧ (QPdfPagedPaintDevicePrivate.setPageMarginsUnits api eng w mg u).2.m_pageLayout
          = eng.pageLayout (eng.setPageMargins w.core mg u)
      ∧ QPdfPagedPaintDevicePrivate.pageLayout eng
          (QPdfPagedPaintDevicePrivate.setPageMarginsUnits api eng w mg u).2
          = eng.pageLayout (eng.setPageMargins w.core mg u)
      ∧ ¬ (api.margins
              (QPdfPagedPaintDevicePrivate.setPageMarginsUnits api eng w mg u).2.m_pageLayout = mg
            ∧ api.units
              (QPdfPagedPaintDevicePrivate.setPageMarginsUnits api eng w mg u).2.m_pageLayout = u)
      ∧ (api.units (eng.pageLayout (eng.setPageMargins w.core mg u)) ≠ u →
          (QPdfPagedPaintDevicePrivate.setPageMarginsUnits api eng w mg u).1 = false)
      ∧ ((∀ x : QMarginsF R, api.marginsEq x mg = true → x = mg) →
          (QPdfPagedPaintDevicePrivate.setPageMarginsUnits api eng w mg u).1 = false)) := by
  refine ⟨fun l h => ⟨rfl, rfl, rfl, h, Iff.rfl, fun hx => ?_⟩,
    fun s h => ⟨rfl, rfl, rfl, h, Iff.rfl, fun hx => ?_⟩,
    fun o h => ⟨rfl, rfl, rfl, h, ?_⟩,
    fun mg u h => ⟨rfl, rfl, rfl, h, fun hu => ?_, fun hx => ?_⟩⟩
  · show api.layoutEquivalentTo (eng.pageLayout (eng.setPageLayout w.core l)) l = false
    cases hb : api.layoutEquivalentTo (eng.pageLayout (eng.setPageLayout w.core l)) l
    · rfl
    · exact absurd (hx _ hb) h
  · show api.sizeEquivalentTo (api.pageSize (eng.pageLayout (eng.setPageSize w.core s))) s = false
    cases hb : api.sizeEquivalentTo (api.pageSize (eng.pageLayout (eng.setPageSize w.core s))) s
    · rfl
    · exact absurd (hx _ hb) h
  · show decide (api.orientation (eng.pageLayout (eng.setPageOrientation w.core o)) = o) = false
    exact decide_eq_false h
  · show (api.marginsEq (api.margins (eng.pageLayout (eng.setPageMargins w.core mg u))) mg
        && decide (api.units (eng.pageLayout (eng.setPageMargins w.core mg u)) = u)) = false
    rw [decide_eq_false hu, Bool.and_false]
  · show (api.marginsEq (api.margins (eng.pageLayout (eng.setPageMargins w.core mg u))) mg
        && decide (api.units (eng.pageLayout (eng.setPageMargins w.core mg u)) = u)) = false
    cases hb : (api.marginsEq (api.margins (eng.pageLayout (eng.setPageMargins w.core mg u))) mg
        && decide (api.units (eng.pageLayout (eng.setPageMargins w.core mg u)) = u))
    · rfl
    · have h2 : api.marginsEq (api.margins (eng.pageLayout (eng.setPageMargins w.core mg u))) mg
          = true
          ∧ api.units (eng.pageLayout (eng.setPageMargins w.core mg u)) = u := by
        simpa using hb
      exact absurd ⟨hx _ h2.1, h2.2⟩ h

/-- The amended C3 at the sample engine.  Margins with a negative component in
points: the engine takes the unit and keeps its margins, `==` on margins holds
between equal margins only, `setPageMargins` returns false and the mirror is the
engine's adjusted layout (margins 10, unit Point).  The page size without
extent, with `isEquivalentTo` holding between equal sizes only: `setPageSize`
returns false and the page size of the mirror is not the request. -/
theorem rejected_request_mirrors_engine_witness :
    (¬ (Sample.api.margins (Sample.engine.pageLayout
            (Sample.engine.setPageMargins Sample.writer0.core Sample.negativeMargins
              Sample.LUnit.Point)) = Sample.negativeMargins
          ∧ Sample.api.units (Sample.engine.pageLayout
            (Sample.engine.setPageMargins Sample.writer0.core Sample.negativeMargins
              Sample.LUnit.Point)) = Sample.LUnit.Point)
      ∧ (∀ x : QMarginsF Int, Sample.api.marginsEq x Sample.negativeMargins = true →
          x = Sample.negativeMargins)
      ∧ (QPdfPagedPaintDevicePrivate.setPageMarginsUnits Sample.api Sample.engine
          Sample.writer0 Sample.negativeMargins Sample.LUnit.Point).1 = false
      ∧ (QPdfPagedPaintDevicePrivate.setPageMarginsUnits Sample.api Sample.engine
          Sample.writer0 Sample.negativeMargins Sample.LUnit.Point).2.m_pageLayout
        = ⟨⟨0, 595, 842⟩, Sample.Orientation.Portrait, ⟨10, 10, 10, 10⟩, Sample.LUnit.Point⟩)
    ∧ (Sample.strictApi.pageSize (Sample.engine.pageLayout
          (Sample.engine.setPageSize Sample.writer0.core Sample.emptySize)) ≠ Sample.emptySize
      ∧ (∀ x : Sample.PageSize, Sample.strictApi.sizeEquivalentTo x Sample.emptySize = true →
          x = Sample.emptySize)
      ∧ (QPdfPagedPaintDevicePrivate.setPageSize Sample.strictApi Sample.engine
          Sample.writer0 Sample.emptySize).1 = false
      ∧ Sample.strictApi.pageSize (QPdfPagedPaintDevicePrivate.setPageSize Sample.strictApi
          Sample.engine Sample.writer0 Sample.emptySize).2.m_pageLayout ≠ Sample.emptySize) :=
  ⟨⟨by decide, fun _ hx => of_decide_eq_true hx,
      ((rejected_request_mirrors_engine Sample.api Sample.engine Sample.writer0).2.2.2
        Sample.negativeMargins Sample.LUnit.Point (by decide)).2.2.2.2.2
        (fun _ hx => of_decide_eq_true hx),
      ((rejected_request_mirrors_engine Sample.api Sample.engine Sample.writer0).2.2.2
        Sample.negativeMargins Sample.LUnit.Point (by decide)).2.1.trans (by decide)⟩,
    ⟨by decide, fun _ hx => of_decide_eq_true hx,
      ((rejected_request_mirrors_engine Sample.strictApi Sample.engine Sample.writer0).2.1
        Sample.emptySize (by decide)).2.2.2.2.2 (fun _ hx => of_decide_eq_true hx),
      ((rejected_request_mirrors_engine Sample.strictApi Sample.engine Sample.writer0).2.1
        Sample.emptySize (by decide)).2.2.2.1⟩⟩

/-- C4: a page-size request that is equivalent to itself and that the engine's
layout carries unchanged after the call makes `setPageSize` return true, and the
layout afterwards (mirror and `pageLayout()`, which agree) has the requested page
size; a layout request that is equivalent to itself and is the engine's layout
after the call makes `setPageLayout` return true, and the layout afterwards
(mirror and `pageLayout()`) is the requested layout. -/
theorem accepted_request_returns_true (api : PageApi L S O U R)
    (eng : QPdfEngine L S O U R E) (w : QPdfWriter L E) :
    (∀ s : S, api.sizeEquivalentTo s s = true →
      api.pageSize (eng.pageLayout (eng.setPageSize w.core s)) = s →
      (QPdfPagedPaintDevicePrivate.setPageSize api eng w s).1 = true
      ∧ MirrorOk eng (QPdfPagedPaintDevicePrivate.setPageSize api eng w s).2
      ∧ api.pageSize (QPdfPagedPaintDevicePrivate.setPageSize api eng w s).2.m_pageLayout = s
      ∧ api.pageSize (QPdfPagedPaintDevicePrivate.pageLayout eng
          (QPdfPagedPaintDevicePrivate.setPageSize api eng w s).2) = s)
    ∧ (∀ l : L, api.layoutEquivalentTo l l = true →
      eng.pageLayout (eng.setPageLayout w.core l) = l →
      (QPdfPagedPaintDevicePrivate.setPageLayout api eng w l).1 = true
      ∧ (QPdfPagedPaintDevicePrivate.setPageLayout api eng w l).2.m_pageLayout = l
      ∧ QPdfPagedPaintDevicePrivate.pageLayout eng
          (QPdfPagedPaintDevicePrivate.setPageLayout api eng w l).2 = l) := by
  refine ⟨fun s hs h => ⟨?_, rfl, h, h⟩, fun l hl h => ⟨?_, h, h⟩⟩
  · show api.sizeEquivalentTo (api.pageSize (eng.pageLayout (eng.setPageSize w.core s))) s = true
    rw [h]; exact hs
  · show api.layoutEquivalentTo (eng.pageLayout (eng.setPageLayout w.core l)) l = true
    rw [h]; exact hl

/-- C4 at the sample engine: the Letter page size is taken unchanged, so
`setPageSize` returns true and the layout afterwards has the Letter page size. -/
theorem accepted_request_returns_true_witness :
    Sample.api.sizeEquivalentTo Sample.letter Sample.letter = true
    ∧ Sample.api.pageSize (Sample.engine.pageLayout
        (Sample.engine.setPageSize Sample.writer0.core Sample.letter)) = Sample.letter
    ∧ (QPdfPagedPaintDevicePrivate.setPageSize Sample.api Sample.engine
        Sample.writer0 Sample.letter).1 = true
    ∧ Sample.api.pageSize (QPdfPagedPaintDevicePrivate.pageLayout Sample.engine
        (QPdfPagedPaintDevicePrivate.setPageSize Sample.api Sample.engine
          Sample.writer0 Sample.letter).2) = Sample.letter :=
  ⟨by decide, by decide,
    ((accepted_request_returns_true Sample.api Sample.engine Sample.writer0).1
      Sample.letter (by decide) (by decide)).1,
    ((accepted_request_returns_true Sample.api Sample.engine Sample.writer0).1
      Sample.letter (by decide) (by decide)).2.2.2⟩

/-- C5: for every `r <= 0`, `setResolution(r)` leaves the writer exactly as it
was: the engine state, the mirrored layout, the title and the creator are
unchanged, `resolution()` and the engine's layout read as before, and the stored
file pointer is untouched.  The function returns nothing, so no error is reported. -/
theorem setResolution_nonpositive_ignored (eng : QPdfEngine L S O U R E)
    (w : QPdfWriter L E) (r : Int) (hr : r ≤ 0) :
    QPdfWriter.setResolution eng w r = w
    ∧ QPdfWriter.resolution eng (QPdfWriter.setResolution eng w r) = QPdfWriter.resolution eng w
    ∧ (QPdfWriter.setResolution eng w r).core = w.core
    ∧ (QPdfWriter.setResolution eng w r).m_pageLayout = w.m_pageLayout
    ∧ QPdfPagedPaintDevicePrivate.pageLayout eng (QPdfWriter.setResolution eng w r)
        = QPdfPagedPaintDevicePrivate.pageLayout eng w
    ∧ QPdfWriter.title (QPdfWriter.setResolution eng w r) = QPdfWriter.title w
    ∧ QPdfWriter.creator (QPdfWriter.setResolution eng w r) = QPdfWriter.creator w := by
  have h : QPdfWriter.setResolution eng w r = w := by
    have : ¬ r > 0 := by omega
    simp [QPdfWriter.setResolution, this]
  rw [h]
  exact ⟨rfl, rfl, rfl, rfl, rfl, rfl, rfl⟩

/-- C5 at the engine whose `setResolution` would rescale the margins: with the
argument -600 the writer, its resolution and its layout stay as they were. -/
theorem setResolution_nonpositive_ignored_witness :
    (-600 : Int) ≤ 0
    ∧ QPdfWriter.setResolution Sample.rescalingEngine
        (QPdfWriter.fromFilename Sample.rescalingEngine "out.pdf") (-600)
      = QPdfWriter.fromFilename Sample.rescalingEngine "out.pdf"
    ∧ QPdfWriter.resolution Sample.rescalingEngine
        (QPdfWriter.setResolution Sample.rescalingEngine
          (QPdfWriter.fromFilename Sample.rescalingEngine "out.pdf") (-600)) = 1200 :=
  ⟨by decide,
    (setResolution_nonpositive_ignored Sample.rescalingEngine
      (QPdfWriter.fromFilename Sample.rescalingEngine "out.pdf") (-600) (by decide)).1,
    (setResolution_nonpositive_ignored Sample.rescalingEngine
      (QPdfWriter.fromFilename Sample.rescalingEngine "out.pdf") (-600) (by decide)).2.1.trans rfl⟩

/-- C6: for every `r > 0`, `setResolution(r)` hands `r` itself to the engine's
`setResolution` (the engine state afterwards is the engine's `setResolution`
applied to the state before and `r`; nothing else in the writer changes), and
when the engine reads back the value it was given, `resolution()` called right
afterwards returns `r`. -/
theorem setResolution_positive_forwarded (eng : QPdfEngine L S O U R E)
    (w : QPdfWriter L E) (r : Int) (hr : 0 < r) :
    QPdfWriter.setResolution eng w r = w.withCore (eng.setResolution w.core r)
    ∧ (QPdfWriter.setResolution eng w r).core = eng.setResolution w.core r
    ∧ (eng.resolution (eng.setResolution w.core r) = r →
        QPdfWriter.resolution eng (QPdfWriter.setResolution eng w r) = r) := by
  have h : QPdfWriter.setResolution eng w r = w.withCore (eng.setResolution w.core r) := by
    have : r > 0 := hr
    simp [QPdfWriter.setResolution, this]
  rw [h]
  exact ⟨rfl, rfl, fun hstore => hstore⟩

/-- C6 at the sample engine with `r = 1`: the engine stores 1 and `resolution()`
returns 1. -/
theorem setResolution_positive_forwarded_witness :
    (0 : Int) < 1
    ∧ Sample.engine.resolution (Sample.engine.setResolution Sample.writer0.core 1) = 1
    ∧ QPdfWriter.resolution Sample.engine
        (QPdfWriter.setResolution Sample.engine Sample.writer0 1) = 1 :=
  ⟨by decide, rfl,
    (setResolution_positive_forwarded Sample.engine Sample.writer0 1 (by decide)).2.2 rfl⟩

/-- C7: each deprecated setter leaves the writer in exactly the state of the
canonical setter on the translated argument: `setPageSize(PageSize id)` as
`setPageSize(QPageSize(PageSizeId(id)))`, `setPageSizeMM(size)` as
`setPageSize(QPageSize(size, Millimeter))`, and `setMargins(m)` as
`setPageMargins(QMarginsF(m.left, m.top, m.right, m.bottom), Millimeter)`; the
engine receives the margins in the order left, top, right, bottom with the unit
Millimeter, whatever the units of the current layout; the layouts afterwards
are the same. -/
theorem deprecated_setters_translate [DecidableEq O] [DecidableEq U]
    (api : PageApi L S O U R) (eng : QPdfEngine L S O U R E) (w : QPdfWriter L E) :
    (∀ id : Int,
      QPdfWriter.setPageSize api eng w id
        = (QPagedPaintDevice.setPageSize api eng w (api.sizeOfId id)).2
      ∧ (QPdfWriter.setPageSize api eng w id).core = eng.setPageSize w.core (api.sizeOfId id)
      ∧ QPagedPaintDevice.pageLayout eng (QPdfWriter.setPageSize api eng w id)
        = QPagedPaintDevice.pageLayout eng
            (QPagedPaintDevice.setPageSize api eng w (api.sizeOfId id)).2)
    ∧ (∀ size : QSizeF R,
      QPdfWriter.setPageSizeMM api eng w size
        = (QPagedPaintDevice.setPageSize api eng w (api.sizeOfMM size)).2
      ∧ (QPdfWriter.setPageSizeMM api eng w size).core
        = eng.setPageSize w.core (api.sizeOfMM size)
      ∧ QPagedPaintDevice.pageLayout eng (QPdfWriter.setPageSizeMM api eng w size)
        = QPagedPaintDevice.pageLayout eng
            (QPagedPaintDevice.setPageSize api eng w (api.sizeOfMM size)).2)
    ∧ (∀ m : Margins R,
      QPdfWriter.setMargins api eng w m
        = (QPagedPaintDevice.setPageMarginsUnits api eng w
            ⟨m.left, m.top, m.right, m.bottom⟩ api.Millimeter).2
      ∧ (QPdfWriter.setMargins api eng w m).core
        = eng.setPageMargins w.core ⟨m.left, m.top, m.right, m.bottom⟩ api.Millimeter
      ∧ QPagedPaintDevice.pageLayout eng (QPdfWriter.setMargins api eng w m)
        = QPagedPaintDevice.pageLayout eng
            (QPagedPaintDevice.setPageMarginsUnits api eng w
              ⟨m.left, m.top, m.right, m.bottom⟩ api.Millimeter).2) :=
  ⟨fun _ => ⟨rfl, rfl, rfl⟩, fun _ => ⟨rfl, rfl, rfl⟩, fun _ => ⟨rfl, rfl, rfl⟩⟩

/-- C8: `setPageMargins(M)` with one argument equals, in the writer afterwards
and in the returned value, `setPageMargins(M, U0)` where `U0` is the units of the
engine's layout read before the call; so it returns true exactly when the
engine's layout after the call has `margins() == M` and `units() == U0`. -/
theorem setPageMargins_uses_current_units [DecidableEq O] [DecidableEq U]
    (api : PageApi L S O U R) (eng : QPdfEngine L S O U R E) (w : QPdfWriter L E)
    (mg : QMarginsF R) :
    QPdfPagedPaintDevicePrivate.setPageMargins api eng w mg
      = QPdfPagedPaintDevicePrivate.setPageMarginsUnits api eng w mg
          (api.units (eng.pageLayout w.core))
    ∧ (QPdfPagedPaintDevicePrivate.setPageMargins api eng w mg).2.core
      = eng.setPageMargins w.core mg (api.units (eng.pageLayout w.core))
    ∧ ((QPdfPagedPaintDevicePrivate.setPageMargins api eng w mg).1 = true
        ↔ api.marginsEq (api.margins
            (eng.pageLayout (QPdfPagedPaintDevicePrivate.setPageMargins api eng w mg).2.core))
            mg = true
          ∧ api.units
            (eng.pageLayout (QPdfPagedPaintDevicePrivate.setPageMargins api eng w mg).2.core)
            = api.units (eng.pageLayout w.core)) := by
  refine ⟨rfl, rfl, ?_⟩
  simp [QPdfPagedPaintDevicePrivate.setPageMargins, QPdfPagedPaintDevicePrivate.setPageMarginsUnits,
    QPdfPagedPaintDevicePrivate.pageLayout, QPdfWriter.core, QPdfWriter.withCore]

/-- C9: `title()` after `setTitle(s)` is `s` and `creator()` after `setCreator(s)`
is `s`, for every string `s`, the empty string included; `setTitle` leaves the
creator, the resolution, the engine's state and layout and the mirror as they
were, and `setCreator` leaves the title, the resolution, the engine's state and
layout and the mirror as they were. -/
theorem title_creator_pass_through (eng : QPdfEngine L S O U R E) (w : QPdfWriter L E)
    (s : String) :
    (QPdfWriter.title (QPdfWriter.setTitle w s) = s
      ∧ QPdfWriter.creator (QPdfWriter.setTitle w s) = QPdfWriter.creator w
      ∧ QPdfWriter.resolution eng (QPdfWriter.setTitle w s) = QPdfWriter.resolution eng w
      ∧ (QPdfWriter.setTitle w s).core = w.core
      ∧ QPdfPagedPaintDevicePrivate.pageLayout eng (QPdfWriter.setTitle w s)
          = QPdfPagedPaintDevicePrivate.pageLayout eng w
      ∧ (QPdfWriter.setTitle w s).m_pageLayout = w.m_pageLayout)
    ∧ (QPdfWriter.creator (QPdfWriter.setCreator w s) = s
      ∧ QPdfWriter.title (QPdfWriter.setCreator w s) = QPdfWriter.title w
      ∧ QPdfWriter.resolution eng (QPdfWriter.setCreator w s) = QPdfWriter.resolution eng w
      ∧ (QPdfWriter.setCreator w s).core = w.core
      ∧ QPdfPagedPaintDevicePrivate.pageLayout eng (QPdfWriter.setCreator w s)
          = QPdfPagedPaintDevicePrivate.pageLayout eng w
      ∧ (QPdfWriter.setCreator w s).m_pageLayout = w.m_pageLayout)
    ∧ QPdfWriter.title (QPdfWriter.setTitle w "") = ""
    ∧ QPdfWriter.creator (QPdfWriter.setCreator w "") = "" :=
  ⟨⟨rfl, rfl, rfl, rfl, rfl, rfl⟩, ⟨rfl, rfl, rfl, rfl, rfl, rfl⟩, rfl, rfl⟩

/-- C10: in every state reachable through the constructors and the operations of
the writer, the file pointer `output` is null, so the destructor's
`delete output` releases nothing; the private constructor sets it to 0; the
file-name constructor only hands the name to the engine's `setOutputFilename`,
and the stream constructor only stores the caller's device in the engine's
`outDevice`. -/
theorem output_always_null [DecidableEq O] [DecidableEq U]
    (api : PageApi L S O U R) (eng : QPdfEngine L S O U R E) (w : QPdfWriter L E)
    (hw : Reachable api eng w) :
    w.d.output = 0
    ∧ QPdfWriterPrivate.deletedOutput w.d = []
    ∧ (QPdfWriterPrivate.new eng : QPdfWriterPrivate E).output = 0
    ∧ (∀ filename : String,
        (QPdfWriter.fromFilename eng filename : QPdfWriter L E).d
          = { engine := { eng.create with
                          core := eng.setOutputFilename eng.create.core filename },
              output := 0 })
    ∧ (∀ device : Ptr,
        (QPdfWriter.fromDevice eng device : QPdfWriter L E).d
          = { engine := { eng.create with outDevice := device }, output := 0 }) := by
  have h : w.d.output = 0 := by
    induction hw with
    | fromFilename f => rfl
    | fromDevice p => rfl
    | step op w _ ih => rw [Op.apply_output]; exact ih
  refine ⟨h, ?_, rfl, fun _ => rfl, fun _ => rfl⟩
  simp [QPdfWriterPrivate.deletedOutput, h]

/-- C10 at the sample engine: the writer built on the caller's device 7, after a
page-size request, a new page and a title, holds no file. -/
theorem output_always_null_witness :
    Reachable Sample.api Sample.engine
      (run Sample.api Sample.engine [Op.setPageSize Sample.letter, Op.newPage, Op.setTitle "t"]
        (QPdfWriter.fromDevice Sample.engine 7))
    ∧ (run Sample.api Sample.engine [Op.setPageSize Sample.letter, Op.newPage, Op.setTitle "t"]
        (QPdfWriter.fromDevice Sample.engine 7)).d.output = 0
    ∧ (run Sample.api Sample.engine [Op.setPageSize Sample.letter, Op.newPage, Op.setTitle "t"]
        (QPdfWriter.fromDevice Sample.engine 7)).d.engine.outDevice = 7 :=
  ⟨Reachable.step (Op.setTitle "t") _
      (Reachable.step Op.newPage _
        (Reachable.step (Op.setPageSize Sample.letter) _ (Reachable.fromDevice 7))),
    (output_always_null Sample.api Sample.engine _
      (Reachable.step (Op.setTitle "t") _
        (Reachable.step Op.newPage _
          (Reachable.step (Op.setPageSize Sample.letter) _ (Reachable.fromDevice 7))))).1,
    rfl⟩

end Theorems

end PdfWriter
